import Mathlib

/-!
Verification of the Vedic-Sky-View core algorithms: the Vimshottari Dasha
period engine, the whole-sign house and drishti (aspect) rules, and the
dasha-aware prediction composer.  Real-number quantities of the source are
modelled as rationals; instants are counted in days, calendar dates as the
integer floor of an instant.  Python's `%` on floats (sign of the divisor)
is modelled by `pymod`, `int()` truncation by `pyint`, and `round(x, n)`
by rounding to the nearest multiple of `10^(-n)`.
-/

namespace Vedic

/-- The nine Vimshottari lords (src/core/calc.py `PLANETS` keys plus Ketu). -/
inductive Planet where
  | Sun | Moon | Mercury | Venus | Mars | Jupiter | Saturn | Rahu | Ketu
deriving DecidableEq, Repr

open Planet

/-- Vimshottari Dasha period lengths in years (src/core/calc.py `DASHA_YEARS`). -/
def DASHA_YEARS : Planet → ℕ
  | Ketu => 7 | Venus => 20 | Sun => 6 | Moon => 10 | Mars => 7
  | Rahu => 18 | Jupiter => 16 | Saturn => 19 | Mercury => 17

/-- The fixed cyclic lord order (src/core/calc.py `DASHA_ORDER`). -/
def DASHA_ORDER : List Planet :=
  [Ketu, Venus, Sun, Moon, Mars, Rahu, Jupiter, Saturn, Mercury]

/-- `DASHA_ORDER.index(p)` of the source. -/
def dashaIndex (p : Planet) : ℕ := DASHA_ORDER.indexOf p

/-- `DASHA_ORDER[i % len(DASHA_ORDER)]` of the source. -/
def dashaAt (i : ℕ) : Planet := DASHA_ORDER.getD (i % 9) Ketu

/-- The 27 nakshatra lords: the lord cycle repeated three times
(src/core/calc.py `NAKSHATRA_LORDS`). -/
def NAKSHATRA_LORDS : List Planet := DASHA_ORDER ++ DASHA_ORDER ++ DASHA_ORDER

/-- Python's `%` for a positive divisor (the remainder has the divisor's sign). -/
def pymod (a b : ℚ) : ℚ := a - b * ⌊a / b⌋

/-- Python's `int()` (truncation toward zero). -/
def pyint (x : ℚ) : ℤ := if 0 ≤ x then ⌊x⌋ else -⌊-x⌋

/-- Python's `round(x, 2)` modelled at rational precision. -/
def round2 (x : ℚ) : ℚ := (⌊x * 100 + 1/2⌋ : ℚ) / 100

/-- Python's `round(x, 4)` modelled at rational precision. -/
def round4 (x : ℚ) : ℚ := (⌊x * 10000 + 1/2⌋ : ℚ) / 10000

/-- The nakshatra span `360 / 27` degrees. -/
def NAK_SPAN : ℚ := 360 / 27

lemma pymod_nonneg (a : ℚ) {b : ℚ} (hb : 0 < b) : 0 ≤ pymod a b := by
  have h := Int.floor_le (a / b)
  have : b * (⌊a / b⌋ : ℚ) ≤ b * (a / b) := by
    exact mul_le_mul_of_nonneg_left h (le_of_lt hb)
  rw [mul_div_cancel₀ a (ne_of_gt hb)] at this
  simpa [pymod] using this

lemma pymod_lt (a : ℚ) {b : ℚ} (hb : 0 < b) : pymod a b < b := by
  have h := Int.lt_floor_add_one (a / b)
  have h3 : b * (a / b) < b * ((⌊a / b⌋ : ℚ) + 1) :=
    mul_lt_mul_of_pos_left h hb
  rw [mul_div_cancel₀ a (ne_of_gt hb)] at h3
  simp only [pymod]
  nlinarith [h3]

lemma pymod_eq_self {a b : ℚ} (hb : 0 < b) (h0 : 0 ≤ a) (h1 : a < b) :
    pymod a b = a := by
  have hfloor : ⌊a / b⌋ = 0 := by
    rw [Int.floor_eq_zero_iff]
    constructor
    · exact div_nonneg h0 (le_of_lt hb)
    · rw [div_lt_one hb]; exact h1
  simp [pymod, hfloor]

lemma pymod_neg_eq {a b : ℚ} (hb : 0 < b) (h0 : -b < a) (h1 : a < 0) :
    pymod a b = a + b := by
  have hfloor : ⌊a / b⌋ = -1 := by
    have hub : a / b < 0 := div_neg_of_neg_of_pos h1 hb
    have hlb : (-1 : ℚ) ≤ a / b := by
      rw [le_div_iff hb]
      nlinarith
    have h2 : ((-1 : ℤ) : ℚ) ≤ a / b := by push_cast; linarith
    have h3 : a / b < ((-1 : ℤ) : ℚ) + 1 := by push_cast; linarith
    exact Int.floor_eq_iff.mpr ⟨h2, h3⟩
  simp only [pymod, hfloor]
  push_cast
  ring

lemma pyint_of_nonneg {x : ℚ} (h : 0 ≤ x) : pyint x = ⌊x⌋ := if_pos h

/-- The normalization into `[0, 360)` used when converting tropical to
sidereal longitudes: `(longitude - ayanamsa) % 360.0`
(src/strength_calculator.py, `calculate_planet_position`). -/
def normalize (L : ℚ) : ℚ := pymod L 360

/-- `sidereal_long = (longitude - ayanamsa) % 360.0`
(src/strength_calculator.py line 170). -/
def siderealLongitude (tropical ayanamsa : ℚ) : ℚ := normalize (tropical - ayanamsa)

/-- C9: longitude normalization is idempotent: for every rational longitude
`L`, `normalize (normalize L) = normalize L`, and `normalize L` lies in
`[0, 360)`. -/
theorem c9_normalize_idempotent (L : ℚ) :
    normalize (normalize L) = normalize L ∧ 0 ≤ normalize L ∧ normalize L < 360 := by
  have h0 : (0 : ℚ) < 360 := by norm_num
  have hn : 0 ≤ normalize L := pymod_nonneg L h0
  have hl : normalize L < 360 := pymod_lt L h0
  exact ⟨pymod_eq_self h0 hn hl, hn, hl⟩

/-! ## Whole-sign house assignment -/

/-- `get_house_number_whole_sign` (src/strength_calculator.py lines 206-210):
`offset = (planet_sign_num - asc_sign_num) % 12; return offset + 1`. -/
def get_house_number_whole_sign (planet_sign_num asc_sign_num : ℤ) : ℤ :=
  (planet_sign_num - asc_sign_num) % 12 + 1

/-- The sign index `int(sidereal_long / 30)` of a longitude
(src/core/calc.py, `get_planet_position`). -/
def sign_num (L : ℚ) : ℤ := pyint (L / 30)

/-- The house assigned by chart building
(src/core/calc.py line 255 and src/predictive_astrology/dasha_predictions.py
line 251): `int(((longitude - sidereal_asc) % 360) / 30) + 1`. -/
def chartHouse (L A : ℚ) : ℤ := pyint (pymod (L - A) 360 / 30) + 1

lemma sign_num_eval {L : ℚ} (h : 0 ≤ L) : sign_num L = ⌊L / 30⌋ := by
  have : (0 : ℚ) ≤ L / 30 := div_nonneg h (by norm_num)
  simp [sign_num, pyint, this]

/-- C3 counterexample: a body at sidereal longitude 5° (sign index 0) with the
ascendant at 15° (also sign index 0) is assigned house 12 by chart building,
not house `((0 - 0) mod 12) + 1 = 1`. -/
theorem c3_counterexample :
    chartHouse 5 15 = 12 ∧ sign_num 5 = 0 ∧ sign_num 15 = 0 ∧
      get_house_number_whole_sign 0 0 = 1 ∧ (12 : ℤ) ≠ 1 := by
  refine ⟨?_, ?_, ?_, by decide, by decide⟩
  · show pyint (pymod ((5 : ℚ) - 15) 360 / 30) + 1 = 12
    have h1 : pymod ((5 : ℚ) - 15) 360 = 350 := by
      rw [pymod_neg_eq (by norm_num) (by norm_num) (by norm_num)]
      norm_num
    rw [h1, pyint_of_nonneg (by norm_num)]
    norm_num
  · rw [sign_num_eval (by norm_num)]; norm_num
  · rw [sign_num_eval (by norm_num)]; norm_num

/-- C3 amended: the sign-index helper `get_house_number_whole_sign` satisfies
the claimed formula `((s - a) mod 12) + 1`, always lies in `[1, 12]`, and
assigns house 1 to the ascendant's own sign; but chart building assigns the
degree-based house `floor(((L - A) mod 360) / 30) + 1`, which for a body in
the ascendant's own sign is 1 exactly when the body's degree-in-sign is at
least the ascendant's, and 12 otherwise. -/
theorem c3_amended :
    (∀ s a : ℤ,
      get_house_number_whole_sign s a = (s - a) % 12 + 1 ∧
      1 ≤ get_house_number_whole_sign s a ∧
      get_house_number_whole_sign s a ≤ 12 ∧
      (s = a → get_house_number_whole_sign s a = 1)) ∧
    (∀ L A : ℚ, 0 ≤ L → L < 360 → 0 ≤ A → A < 360 →
      sign_num L = sign_num A →
      chartHouse L A = if pymod A 30 ≤ pymod L 30 then 1 else 12) := by
  constructor
  · intro s a
    refine ⟨rfl, ?_, ?_, ?_⟩
    · have h := Int.emod_nonneg (s - a) (by norm_num : (12 : ℤ) ≠ 0)
      simp only [get_house_number_whole_sign]
      omega
    · have h := Int.emod_lt_of_pos (s - a) (by norm_num : (0 : ℤ) < 12)
      simp only [get_house_number_whole_sign]
      omega
    · intro h; subst h; simp [get_house_number_whole_sign]
  · intro L A hL0 hL1 hA0 hA1 hsign
    have h30 : (0 : ℚ) < 30 := by norm_num
    have hdL : pymod L 30 = L - 30 * ⌊L / 30⌋ := rfl
    have hdA : pymod A 30 = A - 30 * ⌊A / 30⌋ := rfl
    have hsn : ∀ x : ℚ, 0 ≤ x → sign_num x = ⌊x / 30⌋ := by
      intro x hx
      simp [sign_num, pyint, div_nonneg hx (le_of_lt h30)]
    have hLA : (⌊L / 30⌋ : ℤ) = ⌊A / 30⌋ := by
      rw [← hsn L hL0, ← hsn A hA0]; exact hsign
    have hsub : L - A = pymod L 30 - pymod A 30 := by
      rw [hdL, hdA, hLA]; ring
    have hdL0 : 0 ≤ pymod L 30 := pymod_nonneg L h30
    have hdL1 : pymod L 30 < 30 := pymod_lt L h30
    have hdA0 : 0 ≤ pymod A 30 := pymod_nonneg A h30
    have hdA1 : pymod A 30 < 30 := pymod_lt A h30
    by_cases hcase : pymod A 30 ≤ pymod L 30
    · have hm : pymod (L - A) 360 = L - A := by
        apply pymod_eq_self (by norm_num)
        · rw [hsub]; linarith
        · rw [hsub]; linarith
      have hq0 : 0 ≤ (L - A) / 30 := by
        apply div_nonneg _ (le_of_lt h30)
        rw [hsub]; linarith
      have hq1 : (L - A) / 30 < 1 := by
        rw [div_lt_one h30, hsub]; linarith
      have hfl : ⌊(L - A) / 30⌋ = 0 := by
        rw [Int.floor_eq_zero_iff]; exact ⟨hq0, hq1⟩
      simp [chartHouse, hm, pyint, hq0, hfl, hcase]
    · have hneg : L - A < 0 := by rw [hsub]; linarith
      have hgt : -(360 : ℚ) < L - A := by rw [hsub]; linarith
      have hm : pymod (L - A) 360 = L - A + 360 :=
        pymod_neg_eq (by norm_num) hgt hneg
      have hq0 : 0 ≤ (L - A + 360) / 30 := by
        apply div_nonneg _ (le_of_lt h30)
        linarith
      have hfl : ⌊(L - A + 360) / 30⌋ = 11 := by
        apply Int.floor_eq_iff.mpr
        constructor
        · push_cast
          rw [le_div_iff h30, hsub]; linarith
        · push_cast
          rw [div_lt_iff h30, hsub]; linarith
      simp [chartHouse, hm, pyint, hq0, hfl, hcase]

/-- C3 amended witness at a concrete input. -/
theorem c3_amended_witness :
    get_house_number_whole_sign 3 3 = 1 ∧ chartHouse 5 15 = 12 := by
  have h := c3_amended
  refine ⟨(h.1 3 3).2.2.2 rfl, ?_⟩
  have h2 := h.2 5 15 (by norm_num) (by norm_num) (by norm_num) (by norm_num)
    (by rw [sign_num_eval (by norm_num), sign_num_eval (by norm_num)]; norm_num)
  rw [h2]
  have hA : pymod (15 : ℚ) 30 = 15 := pymod_eq_self (by norm_num) (by norm_num) (by norm_num)
  have hL : pymod (5 : ℚ) 30 = 5 := pymod_eq_self (by norm_num) (by norm_num) (by norm_num)
  rw [hA, hL]
  norm_num

/-! ## The whole-sign aspect (drishti) engine -/

/-- A planet position as far as the aspect rules are concerned: body and
sign index (src/strength_calculator.py `PlanetPosition`, fields `name` and
`sign_num`). -/
structure PlanetPos where
  name : Planet
  sign_num : ℤ
deriving DecidableEq, Repr

/-- Aspect classification kinds (src/strength_calculator.py `AspectInfo.aspect_type`). -/
inductive AspectType where
  | conjunction | drishti
deriving DecidableEq, Repr

/-- The recorded aspect relation (src/strength_calculator.py `AspectInfo`,
with the display-only sign names dropped). -/
structure AspectInfo where
  aspecting_planet : Planet
  aspect_type : AspectType
  target_planet : Planet
  offset : ℤ
  strength : ℚ
deriving DecidableEq, Repr

/-- Full-strength drishti weight (src/strength_calculator.py
`DRISHTI_FULL_STRENGTH = 100`). -/
def DRISHTI_FULL_STRENGTH : ℚ := 100

/-- Per-planet whole-sign drishti offsets
(src/strength_calculator.py `DRISHTI_OFFSETS`). -/
def DRISHTI_OFFSETS : Planet → List ℤ
  | Sun => [6] | Moon => [6] | Mercury => [6] | Venus => [6]
  | Mars => [3, 6, 7] | Jupiter => [4, 6, 8] | Saturn => [2, 6, 9]
  | Rahu => [6] | Ketu => [6]

/-- `check_drishti` (src/strength_calculator.py lines 257-287): same sign
gives a conjunction; otherwise a drishti exactly when the whole-sign offset
is in the transiting planet's offset table. -/
def check_drishti (transit natal : PlanetPos) : Option AspectInfo :=
  if transit.sign_num = natal.sign_num then
    some ⟨transit.name, AspectType.conjunction, natal.name, 0, DRISHTI_FULL_STRENGTH⟩
  else
    let offset := (natal.sign_num - transit.sign_num) % 12
    if offset ∈ DRISHTI_OFFSETS transit.name then
      some ⟨transit.name, AspectType.drishti, natal.name, offset, DRISHTI_FULL_STRENGTH⟩
    else
      none

/-- C4: equal sign indices are classified as a conjunction with offset 0 and
maximum strength, regardless of the offset table; otherwise a drishti with
offset `(natal - transit) mod 12` and maximum strength is recorded exactly
when that offset is in the transiting planet's offset set, and nothing is
recorded otherwise. -/
theorem c4_check_drishti (transit natal : PlanetPos) :
    (transit.sign_num = natal.sign_num →
      check_drishti transit natal =
        some ⟨transit.name, AspectType.conjunction, natal.name, 0, 100⟩) ∧
    (transit.sign_num ≠ natal.sign_num →
      ((natal.sign_num - transit.sign_num) % 12 ∈ DRISHTI_OFFSETS transit.name →
        check_drishti transit natal =
          some ⟨transit.name, AspectType.drishti, natal.name,
            (natal.sign_num - transit.sign_num) % 12, 100⟩) ∧
      ((natal.sign_num - transit.sign_num) % 12 ∉ DRISHTI_OFFSETS transit.name →
        check_drishti transit natal = none)) := by
  refine ⟨fun h => ?_, fun h => ⟨fun hmem => ?_, fun hmem => ?_⟩⟩
  · simp [check_drishti, h, DRISHTI_FULL_STRENGTH]
  · simp [check_drishti, h, hmem, DRISHTI_FULL_STRENGTH]
  · simp [check_drishti, h, hmem]

/-- C4 witness: Sun transiting sign 3 casts its 7th-sign drishti (offset 6)
on a natal Moon in sign 9; Sun and Moon in the same sign 5 give a conjunction. -/
theorem c4_check_drishti_witness :
    check_drishti ⟨Planet.Sun, 3⟩ ⟨Planet.Moon, 9⟩ =
      some ⟨Planet.Sun, AspectType.drishti, Planet.Moon, 6, 100⟩ ∧
    check_drishti ⟨Planet.Sun, 5⟩ ⟨Planet.Moon, 5⟩ =
      some ⟨Planet.Sun, AspectType.conjunction, Planet.Moon, 0, 100⟩ := by
  constructor
  · have h := ((c4_check_drishti ⟨Planet.Sun, 3⟩ ⟨Planet.Moon, 9⟩).2
      (by decide)).1 (by decide)
    rw [h]
    decide
  · exact (c4_check_drishti ⟨Planet.Sun, 5⟩ ⟨Planet.Moon, 5⟩).1 rfl

/-! ## The Vimshottari Dasha engine

Instants are rationals counted in days from an arbitrary epoch; the calendar
date of an instant is its floor.  `calculate_vimshottari` and
`get_current_dasha` model src/predictive_astrology/dasha_predictions.py,
`calculate_antardasha` models src/core/calc.py. -/

/-- Nakshatra index `max(0, min(26, int(longitude // span)))`
(src/predictive_astrology/dasha_predictions.py, `get_nakshatra_info`). -/
def nakIndex (L : ℚ) : ℕ := (max 0 (min 26 ⌊L / NAK_SPAN⌋)).toNat

/-- The nakshatra lord `NAKSHATRA_LORDS[idx]` of a longitude. -/
def nakLord (L : ℚ) : Planet := NAKSHATRA_LORDS.getD (nakIndex L) Ketu

/-- `degrees_in_nakshatra = round(longitude % span, 4)`
(src/predictive_astrology/dasha_predictions.py, `get_nakshatra_info`). -/
def nakDegrees (L : ℚ) : ℚ := round4 (pymod L NAK_SPAN)

/-- A generated Mahadasha period as stored by `calculate_vimshottari`:
lord, start and end calendar dates, and the `years` field. -/
structure MahaPeriod where
  planet : Planet
  startDate : ℤ
  endDate : ℤ
  years : ℚ
deriving DecidableEq, Repr

/-- The period-chaining loop of `calculate_vimshottari`
(src/predictive_astrology/dasha_predictions.py lines 142-164): each period
starts at the instant where the previous one ended; entries carry
(lord, duration in years used for the end instant, stored `years` field). -/
def mahaChain (cur : ℚ) : List (Planet × ℚ × ℚ) → List MahaPeriod
  | [] => []
  | (p, dur, yrs) :: rest =>
      let nxt := cur + dur * (1461 / 4)
      ⟨p, ⌊cur⌋, ⌊nxt⌋, yrs⟩ :: mahaChain nxt rest

/-- The eight full periods following the balance period: lords
`DASHA_ORDER[(start_idx + i) % 9]` for `i = 1..8`, each with its full weight
in years (src/predictive_astrology/dasha_predictions.py lines 152-164). -/
def restLords (startIdx : ℕ) : List (Planet × ℚ × ℚ) :=
  (List.range 8).map fun i =>
    let p := dashaAt (startIdx + (i + 1))
    (p, (DASHA_YEARS p : ℚ), (DASHA_YEARS p : ℚ))

/-- `calculate_vimshottari` (src/predictive_astrology/dasha_predictions.py
lines 128-170): balance period for the birth nakshatra lord followed by the
eight remaining lords of one cycle. -/
def calculate_vimshottari (moonLong : ℚ) (birth : ℚ) : List MahaPeriod :=
  let lord := nakLord moonLong
  let traversed := nakDegrees moonLong
  let balanceYears := (DASHA_YEARS lord : ℚ) * ((NAK_SPAN - traversed) / NAK_SPAN)
  mahaChain birth ((lord, balanceYears, round2 balanceYears) :: restLords (dashaIndex lord))

/-- The Mahadasha lookup of `get_current_dasha`
(src/predictive_astrology/dasha_predictions.py lines 178-182): the first
period with `start_date <= current_date <= end_date`. -/
def findCurrentMaha (periods : List MahaPeriod) (T : ℤ) : Option MahaPeriod :=
  periods.find? fun p => p.startDate ≤ T && T ≤ p.endDate

/-- A generated Antardasha period as stored by `get_current_dasha`. -/
structure AntarPeriod where
  planet : Planet
  startDate : ℤ
  endDate : ℤ
deriving DecidableEq, Repr

/-- `antara_days = int((DASHA_YEARS[antara_lord] * current_maha['years'] *
365.25) / 120)` (src/predictive_astrology/dasha_predictions.py line 201). -/
def antaraDays (lord : Planet) (years : ℚ) : ℤ :=
  pyint ((DASHA_YEARS lord : ℚ) * years * (1461 / 4) / 120)

/-- `if antara_end > maha_end: antara_end = maha_end`
(src/predictive_astrology/dasha_predictions.py lines 204-205). -/
def clipTo (mahaEnd e0 : ℤ) : ℤ := if mahaEnd < e0 then mahaEnd else e0

/-- The Antardasha loop of `get_current_dasha`
(src/predictive_astrology/dasha_predictions.py lines 198-215): at most nine
iterations; sub-period length `antaraDays` whole days; the end is clipped
when it overshoots the Mahadasha end; the loop breaks once the running start
reaches the Mahadasha end. -/
def antarChain (startIdx : ℕ) (years : ℚ) (mahaEnd : ℤ) :
    ℕ → ℕ → ℤ → List AntarPeriod
  | 0, _, _ => []
  | fuel + 1, i, cur =>
      ⟨dashaAt (startIdx + i), cur,
        clipTo mahaEnd (cur + antaraDays (dashaAt (startIdx + i)) years)⟩ ::
        (if mahaEnd ≤ clipTo mahaEnd (cur + antaraDays (dashaAt (startIdx + i)) years)
          then []
          else antarChain startIdx years mahaEnd fuel (i + 1)
            (clipTo mahaEnd (cur + antaraDays (dashaAt (startIdx + i)) years)))

/-- The Antardasha list `get_current_dasha` builds for a found Mahadasha. -/
def antardashaOf (m : MahaPeriod) : List AntarPeriod :=
  antarChain (dashaIndex m.planet) m.years m.endDate 9 0 m.startDate

/-- The Antardasha lookup of `get_current_dasha`
(src/predictive_astrology/dasha_predictions.py lines 217-221). -/
def findCurrentAntar (periods : List AntarPeriod) (T : ℤ) : Option AntarPeriod :=
  periods.find? fun p => p.startDate ≤ T && T ≤ p.endDate

/-- `get_current_dasha` (src/predictive_astrology/dasha_predictions.py
lines 173-223): the current Mahadasha and, within it, the current
Antardasha; `(none, none)` when no Mahadasha contains the instant. -/
def get_current_dasha (periods : List MahaPeriod) (T : ℤ) :
    Option MahaPeriod × Option AntarPeriod :=
  match findCurrentMaha periods T with
  | none => (none, none)
  | some m => (some m, findCurrentAntar (antardashaOf m) T)

/-- An Antardasha record of src/core/calc.py `calculate_antardasha`:
lord, start and end instants, and the exact proportional duration in years
(the source additionally stores display-rounded copies of the duration). -/
structure CAntarPeriod where
  planet : Planet
  startT : ℚ
  endT : ℚ
  years : ℚ
deriving DecidableEq, Repr

/-- The loop of `calculate_antardasha` (src/core/calc.py lines 183-198):
always nine iterations, each `antardasha_years = maha_years * weight / 120`,
chained end to start. -/
def cAntarChain (startIdx : ℕ) (mYears : ℚ) : ℕ → ℕ → ℚ → List CAntarPeriod
  | 0, _, _ => []
  | fuel + 1, i, cur =>
      let p := dashaAt (startIdx + i)
      let y := mYears * (DASHA_YEARS p : ℚ) / 120
      let e := cur + y * (1461 / 4)
      ⟨p, cur, e, y⟩ :: cAntarChain startIdx mYears fuel (i + 1) e

/-- `calculate_antardasha` (src/core/calc.py lines 170-200). -/
def calculate_antardasha (mahaPlanet : Planet) (mahaYears : ℚ) (start : ℚ) :
    List CAntarPeriod :=
  cAntarChain (dashaIndex mahaPlanet) mahaYears 9 0 start

/-! ## Concrete evaluations of the Dasha pipeline -/

lemma nakLord_zero : nakLord 0 = Planet.Ketu := by
  have h : ⌊(0 : ℚ) / NAK_SPAN⌋ = 0 := by norm_num
  simp [nakLord, nakIndex, h]
  rfl

lemma nakDegrees_zero : nakDegrees 0 = 0 := by
  have h : ⌊(0 : ℚ) / NAK_SPAN⌋ = 0 := by norm_num
  simp [nakDegrees, pymod, h, round4]
  norm_num

lemma dashaIndex_Ketu : dashaIndex Planet.Ketu = 0 := by decide

lemma vimshottari_zero_eval :
    calculate_vimshottari 0 0 =
      [⟨Planet.Ketu, 0, 2556, 7⟩, ⟨Planet.Venus, 2556, 9861, 20⟩,
       ⟨Planet.Sun, 9861, 12053, 6⟩, ⟨Planet.Moon, 12053, 15705, 10⟩,
       ⟨Planet.Mars, 15705, 18262, 7⟩, ⟨Planet.Rahu, 18262, 24837, 18⟩,
       ⟨Planet.Jupiter, 24837, 30681, 16⟩, ⟨Planet.Saturn, 30681, 37620, 19⟩,
       ⟨Planet.Mercury, 37620, 43830, 17⟩] := by
  have hbal : (DASHA_YEARS (nakLord 0) : ℚ) *
      ((NAK_SPAN - nakDegrees 0) / NAK_SPAN) = 7 := by
    rw [nakLord_zero, nakDegrees_zero, NAK_SPAN]
    norm_num [DASHA_YEARS]
  have hrest : restLords 0 =
      [(Planet.Venus, (20 : ℚ), (20 : ℚ)), (Planet.Sun, 6, 6), (Planet.Moon, 10, 10),
       (Planet.Mars, 7, 7), (Planet.Rahu, 18, 18), (Planet.Jupiter, 16, 16),
       (Planet.Saturn, 19, 19), (Planet.Mercury, 17, 17)] := by
    simp [restLords, List.range_succ, dashaAt, DASHA_ORDER, DASHA_YEARS]
  rw [calculate_vimshottari, hbal, nakLord_zero, dashaIndex_Ketu, hrest]
  rw [round2]
  norm_num [mahaChain]

/-- C2: the Mahadasha sequence is capped at a single 9-period cycle: for a
birth at instant 0 with natal Moon longitude 0 the generated list has
exactly 9 periods ending on day 43830 (about 120 years), and the lookup of
day 43831 finds no containing period, returning `(none, none)` instead of a
re-wrapped period. -/
theorem c2_single_cycle_cap :
    (calculate_vimshottari 0 0).length = 9 ∧
    (calculate_vimshottari 0 0).getLast?.map (fun p => p.endDate) = some 43830 ∧
    get_current_dasha (calculate_vimshottari 0 0) 43831 = (none, none) := by
  rw [vimshottari_zero_eval]
  refine ⟨rfl, rfl, ?_⟩
  rw [get_current_dasha, findCurrentMaha]
  rfl

/-- C1: with natal Moon longitude 13.3333° (just inside the first nakshatra's
end) and birth at instant 0, the balance Mahadasha starts and ends on the
same calendar date with a stored `years` field of 0; `get_current_dasha`'s
Antardasha loop then exits after a single sub-period instead of enumerating
nine. -/
theorem c1_antardasha_early_exit :
    findCurrentMaha (calculate_vimshottari (133333 / 10000) 0) 0 =
      some ⟨Planet.Ketu, 0, 0, 0⟩ ∧
    antardashaOf ⟨Planet.Ketu, 0, 0, 0⟩ = [⟨Planet.Ketu, 0, 0⟩] ∧
    (antardashaOf ⟨Planet.Ketu, 0, 0, 0⟩).length ≠ 9 := by
  have hfl : ⌊(133333 / 10000 : ℚ) / NAK_SPAN⌋ = 0 := by
    rw [NAK_SPAN]; norm_num
  have hlord : nakLord (133333 / 10000) = Planet.Ketu := by
    simp [nakLord, nakIndex, hfl]
    rfl
  have hdeg : nakDegrees (133333 / 10000) = 133333 / 10000 := by
    rw [nakDegrees, pymod, hfl]
    rw [round4]
    norm_num
  have hbal : (DASHA_YEARS (nakLord (133333 / 10000)) : ℚ) *
      ((NAK_SPAN - nakDegrees (133333 / 10000)) / NAK_SPAN) = 7 / 400000 := by
    rw [hlord, hdeg, NAK_SPAN]
    norm_num [DASHA_YEARS]
  have hpz : pyint 0 = 0 := by
    rw [pyint_of_nonneg le_rfl]
    norm_num
  have hant : antardashaOf ⟨Planet.Ketu, 0, 0, 0⟩ = [⟨Planet.Ketu, 0, 0⟩] := by
    rw [antardashaOf, dashaIndex_Ketu]
    simp [antarChain, antaraDays, clipTo, hpz, dashaAt, DASHA_ORDER]
  refine ⟨?_, hant, by rw [hant]; decide⟩
  rw [calculate_vimshottari, hbal, hlord, dashaIndex_Ketu]
  have hend : ⌊(0 : ℚ) + 7 / 400000 * (1461 / 4)⌋ = 0 := by norm_num
  have hr2 : round2 (7 / 400000) = 0 := by rw [round2]; norm_num
  rw [mahaChain, hr2]
  rw [findCurrentMaha]
  rw [List.find?]
  norm_num [hend]

lemma antar7_eval :
    antardashaOf ⟨Planet.Ketu, 0, 2556, 7⟩ =
      [⟨Planet.Ketu, 0, 149⟩, ⟨Planet.Venus, 149, 575⟩, ⟨Planet.Sun, 575, 702⟩,
       ⟨Planet.Moon, 702, 915⟩, ⟨Planet.Mars, 915, 1064⟩, ⟨Planet.Rahu, 1064, 1447⟩,
       ⟨Planet.Jupiter, 1447, 1787⟩, ⟨Planet.Saturn, 1787, 2191⟩,
       ⟨Planet.Mercury, 2191, 2553⟩] := by
  rw [antardashaOf, dashaIndex_Ketu]
  norm_num [antarChain, antaraDays, clipTo, pyint, dashaAt, DASHA_ORDER, DASHA_YEARS]

/-- C5 counterexample: for the reachable 7-year Ketu Mahadasha of a birth at
instant 0 with Moon longitude 0, `get_current_dasha`'s nine sub-periods are
truncated to whole days and jointly cover 2553 days, falling short of the
7-year (2556.75-day) Mahadasha by more than the 1e-4-year tolerance. -/
theorem c5_counterexample :
    findCurrentMaha (calculate_vimshottari 0 0) 0 = some ⟨Planet.Ketu, 0, 2556, 7⟩ ∧
    ((antardashaOf ⟨Planet.Ketu, 0, 2556, 7⟩).map
        (fun p => p.endDate - p.startDate)).sum = 2553 ∧
    ¬ |(2553 : ℚ) / (1461 / 4) - 7| ≤ 1 / 10000 := by
  refine ⟨?_, ?_, ?_⟩
  · rw [vimshottari_zero_eval, findCurrentMaha, List.find?]
    norm_num
  · rw [antar7_eval]
    decide
  · rw [abs_le]
    norm_num

/-- C5 amended: in `calculate_antardasha` (src/core/calc.py) every Mahadasha
of duration `Y` years expands into exactly 9 sub-periods walking the 9-lord
cycle from the Mahadasha's own lord, the i-th sub-period's duration in years
being `weight(lord) * Y / 120`, and the 9 durations summing to exactly `Y`
(hence within the 1e-4-year tolerance); `get_current_dasha`
(src/predictive_astrology/dasha_predictions.py) instead truncates each
sub-period to whole days, and its 9-period span can miss `Y` by more than
the tolerance. -/
lemma cAntarChain_length (startIdx : ℕ) (Y : ℚ) :
    ∀ (fuel i : ℕ) (cur : ℚ), (cAntarChain startIdx Y fuel i cur).length = fuel
  | 0, _, _ => rfl
  | fuel + 1, i, cur => by
      rw [cAntarChain]
      simp [cAntarChain_length startIdx Y fuel (i + 1)]

lemma cAntarChain_map (startIdx : ℕ) (Y : ℚ) :
    ∀ (fuel i : ℕ) (cur : ℚ),
      (cAntarChain startIdx Y fuel i cur).map (fun a => (a.planet, a.years)) =
        (List.range fuel).map (fun j =>
          (dashaAt (startIdx + (i + j)),
           Y * (DASHA_YEARS (dashaAt (startIdx + (i + j))) : ℚ) / 120))
  | 0, i, cur => by simp [cAntarChain]
  | fuel + 1, i, cur => by
      rw [cAntarChain, List.range_succ_eq_map]
      simp only [List.map_cons, List.map_map]
      refine List.cons_eq_cons.mpr ⟨by simp, ?_⟩
      rw [cAntarChain_map startIdx Y fuel (i + 1)]
      apply List.map_congr_left
      intro j hj
      have hadd : i + 1 + j = i + (j + 1) := by omega
      simp [Function.comp, hadd]

lemma cAntarChain_years (startIdx : ℕ) (Y : ℚ) (fuel i : ℕ) (cur : ℚ) :
    (cAntarChain startIdx Y fuel i cur).map (fun a => a.years) =
      (List.range fuel).map (fun j =>
        Y * (DASHA_YEARS (dashaAt (startIdx + (i + j))) : ℚ) / 120) := by
  have h := cAntarChain_map startIdx Y fuel i cur
  have h2 : ((cAntarChain startIdx Y fuel i cur).map (fun a => (a.planet, a.years))).map
      Prod.snd = (cAntarChain startIdx Y fuel i cur).map (fun a => a.years) := by
    simp [List.map_map, Function.comp]
  rw [← h2, h, List.map_map]
  simp [Function.comp]

lemma dashaAt_add_mod (idx j : ℕ) : dashaAt (idx + j) = dashaAt (idx % 9 + j) := by
  unfold dashaAt
  congr 1
  omega

lemma cycle_weights_sum (idx : ℕ) (Y : ℚ) :
    ((List.range 9).map (fun j =>
      Y * (DASHA_YEARS (dashaAt (idx + j)) : ℚ) / 120)).sum = Y := by
  have hcase : idx % 9 = 0 ∨ idx % 9 = 1 ∨ idx % 9 = 2 ∨ idx % 9 = 3 ∨ idx % 9 = 4 ∨
      idx % 9 = 5 ∨ idx % 9 = 6 ∨ idx % 9 = 7 ∨ idx % 9 = 8 := by omega
  simp only [dashaAt_add_mod idx]
  rcases hcase with h | h | h | h | h | h | h | h | h <;>
    simp only [h] <;>
    simp [List.range_succ, dashaAt, DASHA_ORDER, DASHA_YEARS] <;>
    ring

/-- C5 amended: in `calculate_antardasha` (src/core/calc.py) every Mahadasha
of duration `Y` years expands into exactly 9 sub-periods walking the 9-lord
cycle from the Mahadasha's own lord (the first sub-lord is the Mahadasha lord
itself), the i-th sub-period's duration in years being
`weight(lord) * Y / 120`, and the 9 durations summing to exactly `Y`, hence
within the 1e-4-year tolerance.  (The truncated-day variant in
`get_current_dasha` violates the tolerance; see the counterexample.) -/
theorem c5_amended (p : Planet) (Y s : ℚ) :
    (calculate_antardasha p Y s).length = 9 ∧
    dashaAt (dashaIndex p) = p ∧
    (calculate_antardasha p Y s).map (fun a => (a.planet, a.years)) =
      (List.range 9).map (fun i =>
        (dashaAt (dashaIndex p + i),
         (DASHA_YEARS (dashaAt (dashaIndex p + i)) : ℚ) * Y / 120)) ∧
    ((calculate_antardasha p Y s).map (fun a => a.years)).sum = Y ∧
    |((calculate_antardasha p Y s).map (fun a => a.years)).sum - Y| ≤ 1 / 10000 := by
  have hyears : ((calculate_antardasha p Y s).map (fun a => a.years)).sum = Y := by
    rw [calculate_antardasha, cAntarChain_years]
    have h := cycle_weights_sum (dashaIndex p) Y
    simpa using h
  refine ⟨?_, by cases p <;> decide, ?_, hyears, by rw [hyears]; norm_num⟩
  · rw [calculate_antardasha, cAntarChain_length]
  · rw [calculate_antardasha, cAntarChain_map]
    apply List.map_congr_left
    intro j hj
    simp [mul_comm]

/-! ## Contiguity of generated period lists -/

lemma mahaChain_head_start (cur : ℚ) (l : List (Planet × ℚ × ℚ)) :
    ∀ p ∈ (mahaChain cur l).head?, p.startDate = ⌊cur⌋ := by
  cases l with
  | nil => simp [mahaChain]
  | cons e rest =>
      obtain ⟨q, dur, yrs⟩ := e
      simp [mahaChain]

lemma mahaChain_chain (l : List (Planet × ℚ × ℚ)) :
    ∀ cur : ℚ, List.Chain' (fun a b => a.endDate = b.startDate) (mahaChain cur l) := by
  induction l with
  | nil => intro cur; simp [mahaChain]
  | cons e rest ih =>
      intro cur
      obtain ⟨q, dur, yrs⟩ := e
      rw [mahaChain]
      rw [List.chain'_cons']
      refine ⟨?_, ih _⟩
      intro y hy
      have := mahaChain_head_start (cur + dur * (1461 / 4)) rest y hy
      simp [this]

lemma antarChain_head_start (startIdx : ℕ) (years : ℚ) (mahaEnd : ℤ) :
    ∀ (fuel i : ℕ) (cur : ℤ),
      ∀ p ∈ (antarChain startIdx years mahaEnd fuel i cur).head?, p.startDate = cur := by
  intro fuel
  cases fuel with
  | zero => intro i cur p hp; simp [antarChain] at hp
  | succ n =>
      intro i cur p hp
      rw [antarChain] at hp
      simp only [List.head?_cons, Option.mem_def, Option.some.injEq] at hp
      subst hp
      rfl

lemma antarChain_chain (startIdx : ℕ) (years : ℚ) (mahaEnd : ℤ) :
    ∀ (fuel i : ℕ) (cur : ℤ),
      List.Chain' (fun a b => a.endDate = b.startDate)
        (antarChain startIdx years mahaEnd fuel i cur)
  | 0, _, _ => by simp [antarChain]
  | fuel + 1, i, cur => by
      rw [antarChain]
      rw [List.chain'_cons']
      constructor
      · intro y hy
        by_cases hc : mahaEnd ≤ clipTo mahaEnd (cur + antaraDays (dashaAt (startIdx + i)) years)
        · rw [if_pos hc] at hy
          simp at hy
        · rw [if_neg hc] at hy
          exact (antarChain_head_start startIdx years mahaEnd fuel (i + 1) _ y hy).symm
      · by_cases hc : mahaEnd ≤ clipTo mahaEnd (cur + antaraDays (dashaAt (startIdx + i)) years)
        · rw [if_pos hc]
          simp
        · rw [if_neg hc]
          exact antarChain_chain startIdx years mahaEnd fuel (i + 1) _

lemma cAntarChain_chain (startIdx : ℕ) (mYears : ℚ) :
    ∀ (fuel i : ℕ) (cur : ℚ),
      List.Chain' (fun a b => a.endT = b.startT)
        (cAntarChain startIdx mYears fuel i cur)
  | 0, _, _ => by simp [cAntarChain]
  | fuel + 1, i, cur => by
      rw [cAntarChain]
      rw [List.chain'_cons']
      constructor
      · intro y hy
        cases fuel with
        | zero => simp [cAntarChain] at hy
        | succ n =>
            rw [cAntarChain] at hy
            simp only [List.head?_cons, Option.mem_def, Option.some.injEq] at hy
            subst hy
            rfl
      · exact cAntarChain_chain startIdx mYears fuel (i + 1) _

/-- C6: every generated Dasha period list is contiguous: in the Mahadasha
list of `calculate_vimshottari`, the Antardasha list of `get_current_dasha`,
and the Antardasha list of `calculate_antardasha`, every consecutive pair of
periods satisfies `period[i].end = period[i+1].start`. -/
theorem c6_contiguous :
    (∀ L b : ℚ, List.Chain' (fun a b => a.endDate = b.startDate)
      (calculate_vimshottari L b)) ∧
    (∀ m : MahaPeriod, List.Chain' (fun a b => a.endDate = b.startDate)
      (antardashaOf m)) ∧
    (∀ (p : Planet) (Y s : ℚ), List.Chain' (fun a b => a.endT = b.startT)
      (calculate_antardasha p Y s)) := by
  refine ⟨fun L b => ?_, fun m => ?_, fun p Y s => ?_⟩
  · rw [calculate_vimshottari]
    exact mahaChain_chain _ b
  · rw [antardashaOf]
    exact antarChain_chain _ _ _ 9 0 _
  · rw [calculate_antardasha]
    exact cAntarChain_chain _ _ 9 0 _

/-! ## Lookup of an instant before birth -/

lemma round4_nonneg {x : ℚ} (h : 0 ≤ x) : 0 ≤ round4 x := by
  rw [round4]
  have : (0 : ℤ) ≤ ⌊x * 10000 + 1/2⌋ := by
    apply Int.le_floor.mpr
    push_cast
    nlinarith
  positivity

lemma nakDegrees_le (L : ℚ) : nakDegrees L ≤ NAK_SPAN := by
  have hspan : (0 : ℚ) < NAK_SPAN := by rw [NAK_SPAN]; norm_num
  have hlt : pymod L NAK_SPAN < NAK_SPAN := pymod_lt L hspan
  rw [nakDegrees, round4]
  have hfl : ⌊pymod L NAK_SPAN * 10000 + 1/2⌋ ≤ 133333 := by
    have h2 : ⌊pymod L NAK_SPAN * 10000 + 1/2⌋ < 133334 := by
      apply Int.floor_lt.mpr
      push_cast
      have h3 : pymod L NAK_SPAN < 360 / 27 := by
        calc pymod L NAK_SPAN < NAK_SPAN := hlt
          _ = 360 / 27 := by rw [NAK_SPAN]
      nlinarith
    omega
  calc (⌊pymod L NAK_SPAN * 10000 + 1/2⌋ : ℚ) / 10000
      ≤ (133333 : ℚ) / 10000 := by
        apply div_le_div_of_nonneg_right ?_ (by norm_num)
        exact_mod_cast hfl
    _ ≤ NAK_SPAN := by rw [NAK_SPAN]; norm_num

lemma mahaChain_start_ge (l : List (Planet × ℚ × ℚ)) (hl : ∀ e ∈ l, 0 ≤ e.2.1) :
    ∀ (cur : ℚ), ∀ p ∈ mahaChain cur l, ⌊cur⌋ ≤ p.startDate := by
  induction l with
  | nil => intro cur p hp; simp [mahaChain] at hp
  | cons e rest ih =>
      intro cur p hp
      obtain ⟨q, dur, yrs⟩ := e
      rw [mahaChain] at hp
      rcases List.mem_cons.mp hp with h | h
      · simp [h]
      · have hdur : (0 : ℚ) ≤ dur := hl (q, dur, yrs) (by simp)
        have hmono : ⌊cur⌋ ≤ ⌊cur + dur * (1461 / 4)⌋ := by
          apply Int.floor_le_floor
          nlinarith
        have := ih (fun x hx => hl x (List.mem_cons_of_mem _ hx)) (cur + dur * (1461 / 4)) p h
        omega

/-- C7: looking up any instant whose calendar date precedes the birth date
(in particular, one day before birth) finds no containing period:
`get_current_dasha` returns `(none, none)` — the no-containing-period
failure — rather than any period or a default. -/
theorem c7_before_birth (L b : ℚ) (T : ℤ) (h : T < ⌊b⌋) :
    get_current_dasha (calculate_vimshottari L b) T = (none, none) := by
  have hone : findCurrentMaha (calculate_vimshottari L b) T = none := by
    rw [findCurrentMaha, List.find?_eq_none]
    intro p hp
    have hge : ⌊b⌋ ≤ p.startDate := by
      rw [calculate_vimshottari] at hp
      refine mahaChain_start_ge _ ?_ b p hp
      intro e he
      rcases List.mem_cons.mp he with h1 | h1
      · rw [h1]
        have hdeg := nakDegrees_le L
        have hspan : (0 : ℚ) < NAK_SPAN := by rw [NAK_SPAN]; norm_num
        have : 0 ≤ (NAK_SPAN - nakDegrees L) / NAK_SPAN := by
          apply div_nonneg _ (le_of_lt hspan)
          linarith
        simp only
        positivity
      · rw [restLords] at h1
        simp at h1
        obtain ⟨i, hi, hrfl⟩ := h1
        rw [← hrfl]
        simp only
        positivity
    simp only [Bool.and_eq_true, decide_eq_true_eq, not_and]
    intro hle
    omega
  rw [get_current_dasha, hone]

/-- C7 witness: one day before a birth at instant 0 (Moon longitude 0), the
lookup fails with no containing period. -/
theorem c7_before_birth_witness :
    get_current_dasha (calculate_vimshottari 0 0) (-1) = (none, none) :=
  c7_before_birth 0 0 (-1) (by norm_num)

/-! ## The dasha-aware prediction composer -/

/-- Priority tiers of the prediction composer: HIGHEST for the Mahadasha
lord, HIGH for the Antardasha lord, GENERAL otherwise
(src/predictive_astrology/dasha_predictions.py lines 378-399). -/
inductive Tier where
  | highest | high | general
deriving DecidableEq, Repr

/-- Aspect house-counts of the prediction engine
(src/predictive_astrology/dasha_predictions.py `VEDIC_DRISHTI`). -/
def VEDIC_DRISHTI : Planet → List ℤ
  | Sun => [7] | Moon => [7] | Mars => [4, 7, 8] | Mercury => [7]
  | Jupiter => [5, 7, 9] | Venus => [7] | Saturn => [3, 7, 10]
  | Rahu => [5, 9] | Ketu => [5, 9]

/-- `check_aspect` (src/predictive_astrology/dasha_predictions.py lines
333-343): the transit planet aspects the natal house exactly when
`((transit_house - 1 + aspect) % 12) + 1 == natal_house` for some entry of
its `VEDIC_DRISHTI` list. -/
def check_aspect (transit_house natal_house : ℤ) (planet : Planet) : Bool :=
  (VEDIC_DRISHTI planet).any fun a => (transit_house - 1 + a) % 12 + 1 == natal_house

/-- A classified transiting-planet record of the composer:
importance 10 / 7 / 3 mirror the source's branches. -/
structure TransitRec where
  planet : Planet
  house : ℤ
  tier : Tier
  importance : ℕ
deriving DecidableEq, Repr

/-- A classified aspect record of the composer. -/
structure AspectRec where
  caster : Planet
  target : Planet
  tier : Tier
deriving DecidableEq, Repr

/-- `generate_dasha_aware_predictions`
(src/predictive_astrology/dasha_predictions.py lines 346-416), reduced to
its classification content: each transiting planet is tiered by the
`if planet == maha_lord / elif planet == antara_lord / else` cascade, and
each detected aspect is tiered by the same cascade on its target natal
planet. -/
def generate_dasha_aware_predictions (natal transits : List (Planet × ℤ))
    (mahaLord : Planet) (antaraLord : Option Planet) :
    List TransitRec × List AspectRec :=
  (transits.map fun t =>
    if t.1 = mahaLord then ⟨t.1, t.2, Tier.highest, 10⟩
    else if some t.1 = antaraLord then ⟨t.1, t.2, Tier.high, 7⟩
    else ⟨t.1, t.2, Tier.general, 3⟩,
   transits.bind fun t =>
    natal.filterMap fun n =>
      if check_aspect t.2 n.2 t.1 then
        some (if n.1 = mahaLord then ⟨t.1, n.1, Tier.highest⟩
          else if some n.1 = antaraLord then ⟨t.1, n.1, Tier.high⟩
          else ⟨t.1, n.1, Tier.general⟩)
      else none)

/-- C8: in the composer's output, a transiting planet is classified HIGHEST
exactly when it is the current Mahadasha lord, HIGH exactly when it is the
current Antardasha lord (and not the Mahadasha lord, per the cascade), and
GENERAL otherwise; and every recorded aspect is promoted to the HIGHEST
(resp. HIGH) tier exactly when its target natal planet is the Mahadasha
(resp. Antardasha) lord, regardless of the casting planet. -/
theorem c8_tier_classification (natal transits : List (Planet × ℤ))
    (mahaLord : Planet) (antaraLord : Option Planet) :
    (∀ r ∈ (generate_dasha_aware_predictions natal transits mahaLord antaraLord).1,
      (r.tier = Tier.highest ↔ r.planet = mahaLord) ∧
      (r.tier = Tier.high ↔ (r.planet ≠ mahaLord ∧ some r.planet = antaraLord)) ∧
      (r.tier = Tier.general ↔ (r.planet ≠ mahaLord ∧ some r.planet ≠ antaraLord)) ∧
      (r.tier = Tier.highest → r.importance = 10) ∧
      (r.tier = Tier.high → r.importance = 7) ∧
      (r.tier = Tier.general → r.importance = 3)) ∧
    (∀ r ∈ (generate_dasha_aware_predictions natal transits mahaLord antaraLord).2,
      (r.tier = Tier.highest ↔ r.target = mahaLord) ∧
      (r.tier = Tier.high ↔ (r.target ≠ mahaLord ∧ some r.target = antaraLord))) := by
  constructor
  · intro r hr
    simp only [generate_dasha_aware_predictions, List.mem_map] at hr
    obtain ⟨t, hmem, hrfl⟩ := hr
    by_cases h1 : t.1 = mahaLord
    · rw [if_pos h1] at hrfl
      subst hrfl
      simp [h1]
    · rw [if_neg h1] at hrfl
      by_cases h2 : some t.1 = antaraLord
      · rw [if_pos h2] at hrfl
        subst hrfl
        simp [h1, h2]
      · rw [if_neg h2] at hrfl
        subst hrfl
        simp [h1, h2]
  · intro r hr
    simp only [generate_dasha_aware_predictions, List.mem_bind, List.mem_filterMap] at hr
    obtain ⟨t, htmem, n, hnmem, hf⟩ := hr
    by_cases hasp : check_aspect t.2 n.2 t.1
    · rw [if_pos hasp] at hf
      rw [Option.some.injEq] at hf
      by_cases h1 : n.1 = mahaLord
      · rw [if_pos h1] at hf
        subst hf
        simp [h1]
      · rw [if_neg h1] at hf
        by_cases h2 : some n.1 = antaraLord
        · rw [if_pos h2] at hf
          subst hf
          simp [h1, h2]
        · rw [if_neg h2] at hf
          subst hf
          simp [h1, h2]
    · rw [if_neg hasp] at hf
      exact absurd hf (by simp)

/-- C8 witness: with natal Moon in house 7, transiting Sun in house 1 while
Sun is the Mahadasha lord and Moon the Antardasha lord, the Sun transit
record is in the output and its HIGHEST classification is exactly its being
the Mahadasha lord. -/
theorem c8_tier_classification_witness :
    ((⟨Planet.Sun, 1, Tier.highest, 10⟩ : TransitRec).tier = Tier.highest ↔
      (⟨Planet.Sun, 1, Tier.highest, 10⟩ : TransitRec).planet = Planet.Sun) ∧
    (⟨Planet.Sun, 1, Tier.highest, 10⟩ : TransitRec) ∈
      (generate_dasha_aware_predictions [(Planet.Moon, 7)] [(Planet.Sun, 1)]
        Planet.Sun (some Planet.Moon)).1 := by
  refine ⟨?_, by decide⟩
  exact ((c8_tier_classification [(Planet.Moon, 7)] [(Planet.Sun, 1)]
    Planet.Sun (some Planet.Moon)).1 ⟨Planet.Sun, 1, Tier.highest, 10⟩ (by decide)).1

/-! ## Chart building with a zero Moon longitude -/

/-- The nakshatra record chart building stores for the Moon
(src/predictive_astrology/dasha_predictions.py `get_nakshatra_info`,
src/core/calc.py lines 96-107). -/
structure NakInfo where
  nakshatra_num : ℕ
  lord : Planet
  degrees : ℚ
deriving DecidableEq, Repr

/-- `get_nakshatra_info` output for a longitude. -/
def get_nakshatra_info (L : ℚ) : NakInfo :=
  ⟨nakIndex L + 1, nakLord L, nakDegrees L⟩

/-- The Moon-dependent tail of chart building (src/core/calc.py lines
261-265, src/predictive_astrology/dasha_predictions.py lines 277-280):
`if moon_longitude:` adds the Moon-nakshatra and Vimshottari entries, so a
Moon longitude of exactly 0 (falsy in Python) adds nothing. -/
def chartMoonEntries (moonLong birth : ℚ) : Option (NakInfo × List MahaPeriod) :=
  if moonLong = 0 then none
  else some (get_nakshatra_info moonLong, calculate_vimshottari moonLong birth)

/-- Reading the Dasha context of a chart, as the callers do
(src/predictive_astrology/dasha_predictions.py line 525 reads
`natal_chart['vimshottari']`): a missing entry is a lookup failure. -/
def readDashaContext (c : Option (NakInfo × List MahaPeriod)) :
    Except Unit (List MahaPeriod) :=
  match c with
  | none => Except.error ()
  | some x => Except.ok x.2

/-- C10: with a natal Moon sidereal longitude of exactly 0, chart building
omits the Moon-nakshatra and Vimshottari entries and a caller reading the
Dasha context fails; for every strictly positive Moon longitude the entries
are present. -/
theorem c10_zero_moon_longitude (b L : ℚ) (hL : 0 < L) :
    chartMoonEntries 0 b = none ∧
    readDashaContext (chartMoonEntries 0 b) = Except.error () ∧
    (chartMoonEntries L b).isSome = true := by
  have h0 : chartMoonEntries 0 b = none := by
    rw [chartMoonEntries, if_pos rfl]
  refine ⟨h0, by rw [h0]; rfl, ?_⟩
  rw [chartMoonEntries, if_neg (ne_of_gt hL)]
  rfl

/-- C10 witness at Moon longitude 15 and birth instant 0. -/
theorem c10_zero_moon_longitude_witness :
    chartMoonEntries 0 0 = none ∧
    readDashaContext (chartMoonEntries 0 0) = Except.error () ∧
    (chartMoonEntries 15 0).isSome = true :=
  c10_zero_moon_longitude 0 15 (by norm_num)

end Vedic
